import Mathlib

/-!
Verification development for the structured-logging pipeline in
`task-sdk/src/airflow/sdk/log.py`.

Event dictionaries (structlog `EventDict`) are Python dicts: ordered
mappings from field name to value, with insertion order preserved,
in-place update keeping a key's position, and `pop`/`del` removing a key.
We model them as association lists without duplicate-key assumptions
(lookups find the first occurrence, as a Python dict can never hold
duplicates anyway).
-/

set_option autoImplicit false

namespace AirflowLog

/-- A Python value as it appears in an event dict, restricted to the shapes
the logging processors inspect: strings versus everything else. -/
inductive JValue where
  | vStr (s : String)
  | vInt (n : Int)
  | vBool (b : Bool)
  | vNone
deriving DecidableEq, Repr

/-- An ordered mapping from field name to `α`, the shallow embedding of a
Python dict. -/
abbrev PyDict (α : Type) := List (String × α)

/-- An event dict whose values are plain Python values. -/
abbrev EventDict := PyDict JValue

/-- First-occurrence lookup, the embedding of `d[k]` / `d.get(k)`. -/
def dictGet {α : Type} (d : PyDict α) (k : String) : Option α :=
  match d with
  | [] => none
  | (k', v) :: rest => if k' = k then some v else dictGet rest k

/-- `del d[k]` / successful `d.pop(k)`: remove the key, keeping the order of
the remaining entries. -/
def dictRemove {α : Type} (d : PyDict α) (k : String) : PyDict α :=
  match d with
  | [] => []
  | (k', v) :: rest => if k' = k then dictRemove rest k else (k', v) :: dictRemove rest k

/-- The keys of a dict in insertion order. -/
def dictKeys {α : Type} (d : PyDict α) : List String := d.map Prod.fst

/-- Python `s.startswith(pre)`: a case-sensitive character-prefix test. -/
def strStartsWith (s pre : String) : Bool :=
  pre.data.isPrefixOf s.data

/-! ## `redact_jwt` (log.py lines 92-96)

```python
def redact_jwt(logger, method_name, event_dict):
    for k, v in event_dict.items():
        if isinstance(v, str) and v.startswith("eyJ"):
            event_dict[k] = "eyJ***"
    return event_dict
```
-/

/-- The per-value effect of the loop body of `redact_jwt`. -/
def redactValue (v : JValue) : JValue :=
  match v with
  | .vStr s => if strStartsWith s "eyJ" then .vStr "eyJ***" else .vStr s
  | other => other

/-- `redact_jwt`: scan every field, replacing string values that start with
"eyJ" by the placeholder, leaving everything else in place. -/
def redact_jwt (d : EventDict) : EventDict :=
  d.map (fun kv => (kv.1, redactValue kv.2))

theorem dictGet_redact_jwt (d : EventDict) (k : String) :
    dictGet (redact_jwt d) k = (dictGet d k).map redactValue := by
  induction d with
  | nil => rfl
  | cons hd tl ih =>
      by_cases h : hd.1 = k
      · simp [redact_jwt, dictGet, h]
      · simpa [redact_jwt, dictGet, h] using ih

theorem redactValue_idem (v : JValue) : redactValue (redactValue v) = redactValue v := by
  cases v with
  | vStr s =>
      by_cases h : strStartsWith s "eyJ" = true
      · simp [redactValue, h]
      · simp [redactValue, h]
  | vInt n => rfl
  | vBool b => rfl
  | vNone => rfl

/-- **C1.** Redaction replaces every string field starting with "eyJ" by
exactly "eyJ***", leaves every non-string value and every string not
starting with "eyJ" unchanged, and is idempotent. -/
theorem redact_jwt_spec (d : EventDict) :
    (∀ k s, dictGet d k = some (.vStr s) → strStartsWith s "eyJ" = true →
      dictGet (redact_jwt d) k = some (.vStr "eyJ***"))
    ∧ (∀ k s, dictGet d k = some (.vStr s) → strStartsWith s "eyJ" = false →
      dictGet (redact_jwt d) k = some (.vStr s))
    ∧ (∀ k v, dictGet d k = some v → (∀ s, v ≠ .vStr s) →
      dictGet (redact_jwt d) k = some v)
    ∧ redact_jwt (redact_jwt d) = redact_jwt d := by
  refine ⟨?_, ?_, ?_, ?_⟩
  · intro k s hget hpre
    simp [dictGet_redact_jwt, hget, redactValue, hpre]
  · intro k s hget hpre
    simp [dictGet_redact_jwt, hget, redactValue, hpre]
  · intro k v hget hns
    have hval : redactValue v = v := by
      cases v with
      | vStr s => exact absurd rfl (hns s)
      | vInt n => rfl
      | vBool b => rfl
      | vNone => rfl
    simp [dictGet_redact_jwt, hget, hval]
  · induction d with
    | nil => rfl
    | cons hd tl ih =>
        simp [redact_jwt] at ih ⊢
        exact ⟨redactValue_idem hd.2, ih⟩

/-- Concrete check of C1: a JWT-shaped value is masked, an int survives, and
a second redaction changes nothing. -/
theorem redact_jwt_spec_witness :
    dictGet (redact_jwt [("token", .vStr "eyJhbGci"), ("n", .vInt 3), ("msg", .vStr "hi")])
        "token" = some (.vStr "eyJ***")
    ∧ dictGet (redact_jwt [("token", .vStr "eyJhbGci"), ("n", .vInt 3), ("msg", .vStr "hi")])
        "n" = some (.vInt 3)
    ∧ redact_jwt (redact_jwt [("token", .vStr "eyJhbGci"), ("n", .vInt 3), ("msg", .vStr "hi")])
      = redact_jwt [("token", .vStr "eyJhbGci"), ("n", .vInt 3), ("msg", .vStr "hi")] := by
  refine ⟨?_, ?_, ?_⟩
  · exact (redact_jwt_spec [("token", .vStr "eyJhbGci"), ("n", .vInt 3), ("msg", .vStr "hi")]).1
      "token" "eyJhbGci" (by decide) (by decide)
  · exact (redact_jwt_spec [("token", .vStr "eyJhbGci"), ("n", .vInt 3), ("msg", .vStr "hi")]).2.2.1
      "n" (.vInt 3) (by decide) (by intro s h; cases h)
  · exact (redact_jwt_spec [("token", .vStr "eyJhbGci"), ("n", .vInt 3), ("msg", .vStr "hi")]).2.2.2

/-! ## `json_dumps` (log.py lines 195-205)

```python
def json_dumps(msg, default):
    msg = {
        "timestamp": msg.pop("timestamp"),
        "level": msg.pop("level"),
        "event": msg.pop("event"),
        **msg,
    }
    return msgspec.json.encode(msg, enc_hook=default)
```

We model the dict handed to `msgspec.json.encode` (the encoder writes keys
in insertion order). `msg.pop(k)` raises `KeyError` when `k` is absent,
hence the `Option`.
-/

/-- `json_dumps`: pop "timestamp", "level", "event" in that order and rebuild
the dict with them first, the remaining entries keeping their order. -/
def json_dumps (msg : EventDict) : Option EventDict :=
  match dictGet msg "timestamp" with
  | none => none
  | some t =>
    let msg1 := dictRemove msg "timestamp"
    match dictGet msg1 "level" with
    | none => none
    | some l =>
      let msg2 := dictRemove msg1 "level"
      match dictGet msg2 "event" with
      | none => none
      | some e =>
        let msg3 := dictRemove msg2 "event"
        some ([("timestamp", t), ("level", l), ("event", e)] ++ msg3)

theorem dictGet_dictRemove_ne {α : Type} (d : PyDict α) (k k' : String) (h : k' ≠ k) :
    dictGet (dictRemove d k') k = dictGet d k := by
  induction d with
  | nil => rfl
  | cons hd tl ih =>
      obtain ⟨k0, v0⟩ := hd
      by_cases hk : k0 = k'
      · have hne : k0 ≠ k := by rw [hk]; exact h
        simp [dictRemove, dictGet, hk, hne, h, ih]
      · by_cases hk2 : k0 = k
        · simp [dictRemove, dictGet, hk, hk2, Ne.symm h, ih]
        · simp [dictRemove, dictGet, hk, hk2, ih]

theorem dictKeys_dictRemove {α : Type} (d : PyDict α) (k : String) :
    dictKeys (dictRemove d k) = (dictKeys d).filter (fun x => !(x == k)) := by
  induction d with
  | nil => rfl
  | cons hd tl ih =>
      by_cases hk : hd.1 = k
      · simp only [dictRemove, dictKeys, List.map_cons, List.filter_cons, hk, beq_self_eq_true,
          Bool.not_true, if_false, Bool.false_eq_true]
        simpa [dictKeys] using ih
      · have hb : (hd.1 == k) = false := by simp [hk]
        simp only [dictRemove, dictKeys, List.map_cons, List.filter_cons, hk, hb,
          Bool.not_false, if_true, if_false]
        simp [dictKeys] at ih
        simp [ih]

/-- **C2.** Whenever the record holds the three special fields, the
structured-mode JSON renderer emits "timestamp", "level", "event" as the
first three keys in that order, followed by all remaining fields of the
record in their insertion order. -/
theorem json_dumps_spec (msg : EventDict) (t l e : JValue)
    (ht : dictGet msg "timestamp" = some t)
    (hl : dictGet msg "level" = some l)
    (he : dictGet msg "event" = some e) :
    json_dumps msg =
      some ([("timestamp", t), ("level", l), ("event", e)] ++
        dictRemove (dictRemove (dictRemove msg "timestamp") "level") "event")
    ∧ dictKeys ((json_dumps msg).getD []) =
        ["timestamp", "level", "event"] ++
          (dictKeys msg).filter
            (fun k => !(k == "timestamp" || k == "level" || k == "event")) := by
  have hl1 : dictGet (dictRemove msg "timestamp") "level" = some l := by
    rw [dictGet_dictRemove_ne msg "level" "timestamp" (by decide)]; exact hl
  have he1 : dictGet (dictRemove (dictRemove msg "timestamp") "level") "event" = some e := by
    rw [dictGet_dictRemove_ne _ "event" "level" (by decide),
      dictGet_dictRemove_ne _ "event" "timestamp" (by decide)]
    exact he
  have heq : json_dumps msg =
      some ([("timestamp", t), ("level", l), ("event", e)] ++
        dictRemove (dictRemove (dictRemove msg "timestamp") "level") "event") := by
    simp [json_dumps, ht, hl1, he1]
  refine ⟨heq, ?_⟩
  rw [heq]
  simp only [Option.getD_some, dictKeys, List.map_append]
  have hkeys : dictKeys (dictRemove (dictRemove (dictRemove msg "timestamp") "level") "event")
      = (dictKeys msg).filter
          (fun k => !(k == "timestamp" || k == "level" || k == "event")) := by
    rw [dictKeys_dictRemove, dictKeys_dictRemove, dictKeys_dictRemove, List.filter_filter,
      List.filter_filter]
    apply List.filter_congr
    intro x _
    cases h1 : x == "timestamp" <;> cases h2 : x == "level" <;> cases h3 : x == "event" <;> rfl
  simpa [dictKeys] using hkeys

/-- Concrete check of C2: the record from the specification,
`{event: "hi", level: "info", extra: "x", timestamp: "T"}`, renders its keys
in order timestamp, level, event, extra. -/
theorem json_dumps_spec_witness :
    dictKeys ((json_dumps
        [("event", .vStr "hi"), ("level", .vStr "info"),
          ("extra", .vStr "x"), ("timestamp", .vStr "T")]).getD []) =
      ["timestamp", "level", "event", "extra"] := by
  have h := json_dumps_spec
    [("event", .vStr "hi"), ("level", .vStr "info"),
      ("extra", .vStr "x"), ("timestamp", .vStr "T")]
    (.vStr "T") (.vStr "info") (.vStr "hi") (by decide) (by decide) (by decide)
  rw [h.2]
  decide

/-! ## `exception_group_tracebacks` (log.py lines 43-83)

```python
def _exception_group_tracebacks(logger, method_name, event_dict):
    if exc_info := event_dict.get("exc_info", None):
        group = None
        if exc_info is True:
            exc_info = sys.exc_info()
            if exc_info[0] is None:
                exc_info = None
        if (isinstance(exc_info, tuple) and len(exc_info) == 3
                and isinstance(exc_info[1], BaseExceptionGroup)):
            group = exc_info[1]
        elif isinstance(exc_info, BaseExceptionGroup):
            group = exc_info
        if group:
            del event_dict["exc_info"]
            event_dict["exception"] = list(itertools.chain.from_iterable(
                format_exception((type(exc), exc, exc.__traceback__))
                for exc in (*group.exceptions, group)))
    return event_dict
```
-/

/-- Python lowercasing of a level name (`log_level.lower()`). -/
def pyLower (s : String) : String := ⟨s.data.map Char.toLower⟩

/-- `structlog.stdlib.NAME_TO_LEVEL` lookup on the lower-cased name;
`none` is Python's `KeyError`. -/
def nameToLevel (s : String) : Option Nat :=
  match pyLower s with
  | "critical" => some 50
  | "exception" => some 50
  | "error" => some 40
  | "warn" => some 30
  | "warning" => some 30
  | "info" => some 20
  | "debug" => some 10
  | "notset" => some 0
  | _ => none

/-- An output stream as the configurator inspects it: whether "b" is in its
`mode` and whether it exposes a `buffer` attribute. -/
structure OutputStream where
  isBinary : Bool
  hasBuffer : Bool
deriving DecidableEq, Repr

/-- The argument tuple of `configure_logging`, the `functools.cache` key. -/
structure ConfigureArgs where
  enable_pretty_log : Bool
  log_level : String
  output : Option OutputStream
  cache_logger_on_first_use : Bool
  sending_to_supervisor : Bool
deriving DecidableEq, Repr

/-- What `structlog.configure` received, restricted to the fields the claims
observe. -/
structure StructlogConfig where
  pretty : Bool
  level : Nat
  cache_logger_on_first_use : Bool
deriving DecidableEq, Repr

/-- A value `warnings.showwarning` or `_warnings_showwarning` can hold:
Python `None`, an arbitrary handler function, or the module's
`_showwarning` bridge. -/
inductive WarnVal where
  | pynone
  | fn (tag : Nat)
  | bridge
deriving DecidableEq, Repr

/-- The configuration error raised by `configure_logging`: the `KeyError`
from the level lookup or the `ValueError` for a non-binary output without a
`buffer` attribute (the spec groups both as `ConfigurationError`). -/
inductive ConfigError where
  | keyError (name : String)
  | valueError
deriving DecidableEq, Repr

/-- The process-wide mutable state the configurator touches. -/
structure GlobalState where
  configCache : List ConfigureArgs
  configBuildCount : Nat
  structlogConfig : Option StructlogConfig
  showwarning : WarnVal
  savedShowwarning : WarnVal
deriving DecidableEq, Repr

/-- Interpreter startup: empty caches, no structlog configuration,
`warnings.showwarning` is some ambient handler `h0`, and the module global
`_warnings_showwarning` is `None`. -/
def initState (h0 : Nat) : GlobalState :=
  { configCache := [], configBuildCount := 0, structlogConfig := none,
    showwarning := .fn h0, savedShowwarning := .pynone }

/-- Lines 309-314: save the prior handler and install the bridge, but only
when `_warnings_showwarning is None`. -/
def installWarningsBridge (s : GlobalState) : GlobalState :=
  if s.savedShowwarning = .pynone then
    { s with savedShowwarning := s.showwarning, showwarning := .bridge }
  else s

/-- The body of `configure_logging` (the function under the decorator).
An `.error` models an exception raised before any global was mutated: the
level `KeyError` (line 238) and the output `ValueError` (lines 285-291) both
precede `structlog.configure` and the warnings-bridge install. -/
def configure_body (pytestEnv : Bool) (args : ConfigureArgs) (s : GlobalState) :
    Except ConfigError GlobalState :=
  match nameToLevel args.log_level with
  | none => .error (.keyError (pyLower args.log_level))
  | some lvl =>
      -- Line 258 forces `cache_logger_on_first_use = False` during tests;
      -- it is inlined below as `(if pytestEnv then false else ...)`.
      if args.enable_pretty_log then
        -- Pretty branch: a non-text output is wrapped, never an error.
        .ok (installWarningsBridge
          { s with structlogConfig := some (StructlogConfig.mk true lvl
              (if pytestEnv then false else args.cache_logger_on_first_use)) })
      else
        match args.output with
        | some o =>
            if o.isBinary then
              .ok (installWarningsBridge
                { s with structlogConfig := some (StructlogConfig.mk false lvl
                    (if pytestEnv then false else args.cache_logger_on_first_use)) })
            else if o.hasBuffer then
              -- `output = output.buffer`
              .ok (installWarningsBridge
                { s with structlogConfig := some (StructlogConfig.mk false lvl
                    (if pytestEnv then false else args.cache_logger_on_first_use)) })
            else .error .valueError
        | none =>
            .ok (installWarningsBridge
              { s with structlogConfig := some (StructlogConfig.mk false lvl
                  (if pytestEnv then false else args.cache_logger_on_first_use)) })

/-- `configure_logging` with its `functools.cache` decorator: a repeated
argument tuple returns the cached result (the function returns `None`)
without running the body; a successful run stores its key; a raising run
stores nothing. -/
def configure_logging (pytestEnv : Bool) (args : ConfigureArgs) (s : GlobalState) :
    Except ConfigError GlobalState :=
  if args ∈ s.configCache then .ok s
  else
    match configure_body pytestEnv args s with
    | .error e => .error e
    | .ok s1 => .ok { s1 with configCache := args :: s1.configCache,
                              configBuildCount := s1.configBuildCount + 1 }

/-- `reset_logging`: `warnings.showwarning = _warnings_showwarning` and
`configure_logging.cache_clear()`. Note `_warnings_showwarning` itself is
left as it is. -/
def reset_logging (s : GlobalState) : GlobalState :=
  { s with showwarning := s.savedShowwarning, configCache := [] }

/-- The processors `logging_processors` assembles for a flag, by name, in
source order (log.py lines 137-145, 178, 191, 213-219). -/
inductive ProcName where
  | timestamper | merge_contextvars | add_log_level | positional_args_formatter
  | logger_name_processor | redact_jwt_processor | stack_info_renderer
  | exc_group_processor | dict_tracebacks | unicode_decoder | json_renderer
  | console_renderer
deriving DecidableEq, Repr

/-- The processor list `logging_processors` builds for a given flag. -/
def logging_processors_build (enable_pretty_log : Bool) : List ProcName :=
  if enable_pretty_log then
    [.timestamper, .merge_contextvars, .add_log_level, .positional_args_formatter,
      .logger_name_processor, .redact_jwt_processor, .stack_info_renderer,
      .console_renderer]
  else
    [.timestamper, .merge_contextvars, .add_log_level, .positional_args_formatter,
      .logger_name_processor, .redact_jwt_processor, .stack_info_renderer,
      .exc_group_processor, .dict_tracebacks, .unicode_decoder, .json_renderer]

/-- A `functools.cache` table for a unary function, with a count of how
often the wrapped body actually ran. -/
structure Memo (α β : Type) where
  table : List (α × β)
  builds : Nat

/-- First-match lookup in a memo table. -/
def memoFind {α β : Type} [DecidableEq α] : List (α × β) → α → Option β
  | [], _ => none
  | (a', b) :: rest, a => if a' = a then some b else memoFind rest a

/-- Calling a `functools.cache`-decorated function: return the stored result
on a key hit, otherwise run the body once and store the result. -/
def memoCall {α β : Type} [DecidableEq α] (build : α → β) (m : Memo α β) (a : α) :
    β × Memo α β :=
  match memoFind m.table a with
  | some b => (b, m)
  | none =>
      let b := build a
      (b, ⟨(a, b) :: m.table, m.builds + 1⟩)

/-- `logging_processors` as called at runtime: the memoized builder. -/
def logging_processors (m : Memo Bool (List ProcName)) (flag : Bool) :
    (List ProcName) × Memo Bool (List ProcName) :=
  memoCall logging_processors_build m flag

theorem installWarningsBridge_of_saved_none (t : GlobalState)
    (h : t.savedShowwarning = .pynone) :
    installWarningsBridge t =
      { t with savedShowwarning := t.showwarning, showwarning := .bridge } := by
  simp [installWarningsBridge, h]

theorem installWarningsBridge_of_saved_ne (t : GlobalState)
    (h : t.savedShowwarning ≠ .pynone) :
    installWarningsBridge t = t := by
  simp [installWarningsBridge, h]

theorem installWarningsBridge_structlog (t : GlobalState) :
    (installWarningsBridge t).structlogConfig = t.structlogConfig := by
  unfold installWarningsBridge
  split
  · rfl
  · rfl

theorem configure_body_ok_shape (env : Bool) (args : ConfigureArgs) (s s' : GlobalState)
    (h : configure_body env args s = .ok s') :
    ∃ lvl, nameToLevel args.log_level = some lvl ∧
      s' = installWarningsBridge
        { s with
          structlogConfig := some (StructlogConfig.mk args.enable_pretty_log lvl
            (if env then false else args.cache_logger_on_first_use)) } := by
  unfold configure_body at h
  cases hn : nameToLevel args.log_level with
  | none => rw [hn] at h; cases h
  | some lvl =>
      simp only [hn] at h
      refine ⟨lvl, rfl, ?_⟩
      by_cases hp : args.enable_pretty_log = true
      · simp only [hp, if_true] at h
        rw [hp]
        exact (Except.ok.inj h).symm
      · simp only [Bool.not_eq_true] at hp
        simp only [hp, Bool.false_eq_true, if_false] at h
        rw [hp]
        cases ho : args.output with
        | none =>
            simp only [ho] at h
            exact (Except.ok.inj h).symm
        | some o =>
            simp only [ho] at h
            by_cases hb : o.isBinary = true
            · simp only [hb, if_true] at h
              exact (Except.ok.inj h).symm
            · simp only [Bool.not_eq_true] at hb
              simp only [hb, Bool.false_eq_true, if_false] at h
              by_cases hbuf : o.hasBuffer = true
              · simp only [hbuf, if_true] at h
                exact (Except.ok.inj h).symm
              · simp only [Bool.not_eq_true] at hbuf
                simp only [hbuf, Bool.false_eq_true, if_false] at h
                cases h

theorem configure_logging_miss (env : Bool) (args : ConfigureArgs) (s s1 : GlobalState)
    (hm : args ∉ s.configCache) (h : configure_logging env args s = .ok s1) :
    ∃ sb, configure_body env args s = .ok sb
      ∧ s1 = { sb with configCache := args :: sb.configCache,
                       configBuildCount := sb.configBuildCount + 1 } := by
  unfold configure_logging at h
  rw [if_neg hm] at h
  cases hb : configure_body env args s with
  | error e => rw [hb] at h; cases h
  | ok sb =>
      rw [hb] at h
      exact ⟨sb, rfl, (Except.ok.inj h).symm⟩

theorem configure_logging_ok_mem (env : Bool) (args : ConfigureArgs)
    (s s1 : GlobalState) (h : configure_logging env args s = .ok s1) :
    args ∈ s1.configCache := by
  by_cases hm : args ∈ s.configCache
  · unfold configure_logging at h
    rw [if_pos hm] at h
    rw [← Except.ok.inj h]
    exact hm
  · obtain ⟨sb, _, hs1⟩ := configure_logging_miss env args s s1 hm h
    rw [hs1]
    exact List.mem_cons_self _ _

/-- **C4.** With equal argument tuples, `cache_on_first_use = true` and no
test-harness marker, a second consecutive `configure_logging` call returns
the cached result without rebuilding (the state, including the build
counter, is unchanged); the cached entry persists until `reset_logging`
clears the table; and the memoized `logging_processors` returns the
identical stored result for the same pretty-flag across calls. -/
theorem configure_logging_memoization (args : ConfigureArgs) (s s1 : GlobalState)
    (m : Memo Bool (List ProcName)) (flag : Bool)
    (hflag : args.cache_logger_on_first_use = true)
    (h1 : configure_logging false args s = .ok s1) :
    configure_logging false args s1 = .ok s1
    ∧ (∀ s2 : GlobalState, args ∈ s2.configCache →
        configure_logging false args s2 = .ok s2)
    ∧ (reset_logging s1).configCache = []
    ∧ (logging_processors (logging_processors m flag).2 flag).1
        = (logging_processors m flag).1
    ∧ (logging_processors (logging_processors m flag).2 flag).2
        = (logging_processors m flag).2 := by
  have hcached : ∀ s2 : GlobalState, args ∈ s2.configCache →
      configure_logging false args s2 = .ok s2 := by
    intro s2 hm
    simp [configure_logging, hm]
  have hproc : (logging_processors (logging_processors m flag).2 flag)
      = ((logging_processors m flag).1, (logging_processors m flag).2) := by
    unfold logging_processors memoCall
    cases hf : memoFind m.table flag with
    | some b => simp [hf]
    | none => simp [hf, memoFind]
  refine ⟨hcached s1 (configure_logging_ok_mem false args s s1 h1), hcached, rfl, ?_, ?_⟩
  · rw [hproc]
  · rw [hproc]

/-- Concrete check of C4: a first configure call builds once; the immediate
repeat returns the very same state, build counter still 1. -/
theorem configure_logging_memoization_witness :
    configure_logging false ⟨true, "DEBUG", none, true, false⟩ (initState 0) =
      .ok { configCache := [⟨true, "DEBUG", none, true, false⟩], configBuildCount := 1,
            structlogConfig := some ⟨true, 10, true⟩,
            showwarning := .bridge, savedShowwarning := .fn 0 }
    ∧ configure_logging false ⟨true, "DEBUG", none, true, false⟩
        { configCache := [⟨true, "DEBUG", none, true, false⟩], configBuildCount := 1,
          structlogConfig := some ⟨true, 10, true⟩,
          showwarning := .bridge, savedShowwarning := .fn 0 } =
      .ok { configCache := [⟨true, "DEBUG", none, true, false⟩], configBuildCount := 1,
            structlogConfig := some ⟨true, 10, true⟩,
            showwarning := .bridge, savedShowwarning := .fn 0 } := by
  refine ⟨rfl, ?_⟩
  exact (configure_logging_memoization ⟨true, "DEBUG", none, true, false⟩ (initState 0)
    { configCache := [⟨true, "DEBUG", none, true, false⟩], configBuildCount := 1,
      structlogConfig := some ⟨true, 10, true⟩,
      showwarning := .bridge, savedShowwarning := .fn 0 }
    ⟨[], 0⟩ true rfl rfl).1

/-- **C5 as stated is false**: with the test-harness marker present, two
consecutive `configure_logging` calls with the same argument tuple do NOT
each observe a fresh build — the second is answered from the
`functools.cache` table (`PYTEST_CURRENT_TEST` is checked inside the cached
body, so it cannot disable the decorator): the build counter stays at 1 and
the state is returned unchanged. -/
theorem configure_logging_pytest_counterexample :
    configure_logging true ⟨true, "DEBUG", none, true, false⟩ (initState 0) =
      .ok { configCache := [⟨true, "DEBUG", none, true, false⟩], configBuildCount := 1,
            structlogConfig := some ⟨true, 10, false⟩,
            showwarning := .bridge, savedShowwarning := .fn 0 }
    ∧ configure_logging true ⟨true, "DEBUG", none, true, false⟩
        { configCache := [⟨true, "DEBUG", none, true, false⟩], configBuildCount := 1,
          structlogConfig := some ⟨true, 10, false⟩,
          showwarning := .bridge, savedShowwarning := .fn 0 } =
      .ok { configCache := [⟨true, "DEBUG", none, true, false⟩], configBuildCount := 1,
            structlogConfig := some ⟨true, 10, false⟩,
            showwarning := .bridge, savedShowwarning := .fn 0 } :=
  ⟨rfl, rfl⟩

/-- **C5 (amended).** Whenever the test-harness marker is present and the
configure body actually runs (a cache miss), the structlog configuration it
installs has `cache_logger_on_first_use = false`; the argument-tuple
memoization of `configure_logging` itself stays in force. -/
theorem configure_logging_pytest_flag (args : ConfigureArgs) (s s1 : GlobalState)
    (hmiss : args ∉ s.configCache)
    (h : configure_logging true args s = .ok s1) :
    (s1.structlogConfig.map fun c => c.cache_logger_on_first_use) = some false := by
  obtain ⟨sb, hb, hs1⟩ := configure_logging_miss true args s s1 hmiss h
  obtain ⟨lvl, _, hshape⟩ := configure_body_ok_shape true args s sb hb
  have hsb : sb.structlogConfig =
      some (StructlogConfig.mk args.enable_pretty_log lvl false) := by
    rw [hshape, installWarningsBridge_structlog]
    simp
  rw [hs1]
  simp [hsb]

/-- Concrete check of the amended C5: under the marker, a fresh call
installs a structlog configuration with logger caching off. -/
theorem configure_logging_pytest_flag_witness :
    (configure_logging true ⟨true, "DEBUG", none, true, false⟩ (initState 0) =
      .ok { configCache := [⟨true, "DEBUG", none, true, false⟩], configBuildCount := 1,
            structlogConfig := some ⟨true, 10, false⟩,
            showwarning := .bridge, savedShowwarning := .fn 0 })
    ∧ (({ configCache := [⟨true, "DEBUG", none, true, false⟩], configBuildCount := 1,
          structlogConfig := some ⟨true, 10, false⟩,
          showwarning := .bridge, savedShowwarning := .fn 0 }
            : GlobalState).structlogConfig.map fun c => c.cache_logger_on_first_use)
        = some false := by
  refine ⟨rfl, ?_⟩
  exact configure_logging_pytest_flag ⟨true, "DEBUG", none, true, false⟩ (initState 0)
    { configCache := [⟨true, "DEBUG", none, true, false⟩], configBuildCount := 1,
      structlogConfig := some ⟨true, 10, false⟩,
      showwarning := .bridge, savedShowwarning := .fn 0 }
    (by simp [initState]) rfl

/-- **C6 is a code bug**: called without any prior configure,
`reset_logging` is not a no-op — `_warnings_showwarning` is still Python
`None`, and the code assigns it to `warnings.showwarning` unconditionally,
replacing the interpreter's handler with `None` (any later warning would
then call a non-callable). The claim's remaining parts (restore after a
configure, cache cleared, idempotence) do hold, but this conjunct fails. -/
theorem reset_logging_without_configure :
    reset_logging (initState 7) =
      { configCache := [], configBuildCount := 0, structlogConfig := none,
        showwarning := .pynone, savedShowwarning := .pynone }
    ∧ (initState 7).showwarning = .fn 7
    ∧ reset_logging (initState 7) ≠ initState 7 := by
  refine ⟨rfl, rfl, ?_⟩
  intro h
  have := congrArg GlobalState.showwarning h
  simp [reset_logging, initState] at this

/-- **C8.** A fresh `configure_logging` call fails with the level `KeyError`
when the (case-insensitively lowered) level name is unknown, and in
structured mode fails with the output `ValueError` when the supplied stream
is not binary and exposes no buffer attribute; both surface to the caller
and abort the call before any global is mutated. -/
theorem configure_logging_error_spec (env : Bool) (args : ConfigureArgs)
    (s : GlobalState) (hmiss : args ∉ s.configCache) :
    (nameToLevel args.log_level = none →
      configure_logging env args s = .error (.keyError (pyLower args.log_level)))
    ∧ (∀ o lvl, nameToLevel args.log_level = some lvl →
        args.enable_pretty_log = false → args.output = some o →
        o.isBinary = false → o.hasBuffer = false →
        configure_logging env args s = .error .valueError) := by
  constructor
  · intro hn
    unfold configure_logging configure_body
    simp [hmiss, hn]
  · intro o lvl hn hp ho hb hbuf
    unfold configure_logging configure_body
    simp [hmiss, hn, hp, ho, hb, hbuf]

/-- Concrete check of C8: an unknown level name and a non-binary bufferless
output each abort a fresh configure call. -/
theorem configure_logging_error_spec_witness :
    configure_logging false ⟨true, "verbose", none, true, false⟩ (initState 0) =
      .error (.keyError "verbose")
    ∧ configure_logging false ⟨false, "INFO", some ⟨false, false⟩, true, false⟩
        (initState 0) = .error .valueError := by
  constructor
  · exact (configure_logging_error_spec false ⟨true, "verbose", none, true, false⟩
      (initState 0) (by simp [initState])).1 (by decide)
  · exact (configure_logging_error_spec false
      ⟨false, "INFO", some ⟨false, false⟩, true, false⟩
      (initState 0) (by simp [initState])).2 ⟨false, false⟩ 20 (by decide) rfl rfl rfl rfl

/-- **C10.** In a configure–reset–configure execution the warnings bridge is
not reinstalled: the first configure saves the original handler and installs
the bridge, reset puts the original handler back but leaves the module-level
saved handler non-None, so the second configure skips both the re-save and
the re-assignment, and the process-wide handler stays the original one. -/
theorem warnings_bridge_not_reinstalled (env1 env2 : Bool)
    (args1 args2 : ConfigureArgs) (h0 : Nat) (s1 s3 : GlobalState)
    (h1 : configure_logging env1 args1 (initState h0) = .ok s1)
    (h3 : configure_logging env2 args2 (reset_logging s1) = .ok s3) :
    s3.savedShowwarning = .fn h0 ∧ s3.savedShowwarning ≠ .pynone
    ∧ s3.showwarning = .fn h0 := by
  have hm1 : args1 ∉ (initState h0).configCache := by simp [initState]
  obtain ⟨sb1, hb1, hs1⟩ := configure_logging_miss env1 args1 (initState h0) s1 hm1 h1
  obtain ⟨lvl1, _, hshape1⟩ := configure_body_ok_shape env1 args1 (initState h0) sb1 hb1
  rw [installWarningsBridge_of_saved_none _ (by simp [initState])] at hshape1
  have hs1saved : s1.savedShowwarning = .fn h0 := by
    rw [hs1, hshape1]
    simp [initState]
  have hm2 : args2 ∉ (reset_logging s1).configCache := by simp [reset_logging]
  obtain ⟨sb2, hb2, hs3⟩ := configure_logging_miss env2 args2 (reset_logging s1) s3 hm2 h3
  obtain ⟨lvl2, _, hshape2⟩ := configure_body_ok_shape env2 args2 (reset_logging s1) sb2 hb2
  rw [installWarningsBridge_of_saved_ne _ (by simp [reset_logging, hs1saved])] at hshape2
  have hsaved3 : s3.savedShowwarning = .fn h0 := by
    rw [hs3, hshape2]
    simp [reset_logging, hs1saved]
  have hshow3 : s3.showwarning = .fn h0 := by
    rw [hs3, hshape2]
    simp [reset_logging, hs1saved]
  refine ⟨hsaved3, ?_, hshow3⟩
  rw [hsaved3]
  simp

/-- Concrete check of C10: configure, reset, configure with the default
argument tuple; the second configure leaves the original handler (tag 5)
installed and saved. -/
theorem warnings_bridge_not_reinstalled_witness :
    configure_logging false ⟨true, "DEBUG", none, true, false⟩ (initState 5) =
      .ok { configCache := [⟨true, "DEBUG", none, true, false⟩], configBuildCount := 1,
            structlogConfig := some ⟨true, 10, true⟩,
            showwarning := .bridge, savedShowwarning := .fn 5 }
    ∧ ({ configCache := [⟨true, "DEBUG", none, true, false⟩], configBuildCount := 2,
          structlogConfig := some ⟨true, 10, true⟩,
          showwarning := .fn 5, savedShowwarning := .fn 5 } : GlobalState).savedShowwarning
        = .fn 5
    ∧ ({ configCache := [⟨true, "DEBUG", none, true, false⟩], configBuildCount := 2,
          structlogConfig := some ⟨true, 10, true⟩,
          showwarning := .fn 5, savedShowwarning := .fn 5 } : GlobalState).showwarning
        = .fn 5 := by
  refine ⟨rfl, ?_, ?_⟩
  · exact (warnings_bridge_not_reinstalled false false
      ⟨true, "DEBUG", none, true, false⟩ ⟨true, "DEBUG", none, true, false⟩ 5
      { configCache := [⟨true, "DEBUG", none, true, false⟩], configBuildCount := 1,
        structlogConfig := some ⟨true, 10, true⟩,
        showwarning := .bridge, savedShowwarning := .fn 5 }
      { configCache := [⟨true, "DEBUG", none, true, false⟩], configBuildCount := 2,
        structlogConfig := some ⟨true, 10, true⟩,
        showwarning := .fn 5, savedShowwarning := .fn 5 }
      rfl rfl).1
  · exact (warnings_bridge_not_reinstalled false false
      ⟨true, "DEBUG", none, true, false⟩ ⟨true, "DEBUG", none, true, false⟩ 5
      { configCache := [⟨true, "DEBUG", none, true, false⟩], configBuildCount := 1,
        structlogConfig := some ⟨true, 10, true⟩,
        showwarning := .bridge, savedShowwarning := .fn 5 }
      { configCache := [⟨true, "DEBUG", none, true, false⟩], configBuildCount := 2,
        structlogConfig := some ⟨true, 10, true⟩,
        showwarning := .fn 5, savedShowwarning := .fn 5 }
      rfl rfl).2.2

/-! ## `StdBinaryStreamHandler.emit` (log.py lines 112-125)

```python
def emit(self, record):
    try:
        msg = self.format(record)
        buffer = bytearray(msg, "utf-8", "backslashreplace")
        buffer += b"\\n"
        stream = self.stream
        stream.write(buffer)
        self.flush()
    except RecursionError:  # See issue 36272
        raise
    except Exception:
        self.handleError(record)
```
-/

/-- An exception arising while formatting, writing or flushing a record. -/
inductive EmitErr where
  | recursion
  | failure (tag : Nat)
deriving DecidableEq, Repr

/-- The handler's observable state: the bytes written to the stream, whether
a flush followed the last write, and how often the standard broken-sink
fallback (`self.handleError`) ran. -/
structure HandlerState where
  out : List UInt8
  flushed : Bool
  errorsHandled : Nat
deriving DecidableEq, Repr

/-- `bytearray(msg, "utf-8", "backslashreplace")`: total — the
"backslashreplace" error handler substitutes unencodable code points
instead of raising, so encoding itself never fails. -/
def encodeUtf8 (s : String) : List UInt8 := s.toUTF8.toList

/-- The outcome of one `emit` call. -/
inductive EmitOutcome where
  | ok (st : HandlerState)
  | handled (st : HandlerState)
  | raised (e : EmitErr)
deriving DecidableEq, Repr

/-- `StdBinaryStreamHandler.emit`. `fmtResult` is what `self.format(record)`
produced (a string, or the exception it raised); `writeErr` is an exception
raised by `stream.write`/`self.flush`, if any. -/
def emit (fmtResult : Except EmitErr String) (writeErr : Option EmitErr)
    (st : HandlerState) : EmitOutcome :=
  match fmtResult with
  | .error .recursion => .raised .recursion
  | .error (.failure _) =>
      .handled { st with errorsHandled := st.errorsHandled + 1 }
  | .ok msg =>
      match writeErr with
      | some .recursion => .raised .recursion
      | some (.failure _) =>
          .handled { st with errorsHandled := st.errorsHandled + 1 }
      | none =>
          .ok { st with out := st.out ++ encodeUtf8 msg ++ [10], flushed := true }

/-- **C7.** On the success path the formatted text is UTF-8 encoded (a total
operation: encoding never raises), exactly one newline byte is appended, and
the frame is written and flushed; a RecursionError from formatting or from
the write/flush propagates; any other exception is routed to the broken-sink
fallback; and no non-recursion exception ever propagates. -/
theorem emit_spec (fmtResult : Except EmitErr String) (writeErr : Option EmitErr)
    (st : HandlerState) :
    (∀ msg, fmtResult = .ok msg → writeErr = none →
      emit fmtResult writeErr st =
        .ok { st with out := st.out ++ encodeUtf8 msg ++ [10], flushed := true })
    ∧ (fmtResult = .error .recursion →
      emit fmtResult writeErr st = .raised .recursion)
    ∧ (∀ msg, fmtResult = .ok msg → writeErr = some .recursion →
      emit fmtResult writeErr st = .raised .recursion)
    ∧ (∀ t, fmtResult = .error (.failure t) →
      emit fmtResult writeErr st =
        .handled { st with errorsHandled := st.errorsHandled + 1 })
    ∧ (∀ msg t, fmtResult = .ok msg → writeErr = some (.failure t) →
      emit fmtResult writeErr st =
        .handled { st with errorsHandled := st.errorsHandled + 1 })
    ∧ (∀ t, emit fmtResult writeErr st ≠ .raised (.failure t)) := by
  refine ⟨?_, ?_, ?_, ?_, ?_, ?_⟩
  · intro msg hf hw
    simp [emit, hf, hw]
  · intro hf
    simp [emit, hf]
  · intro msg hf hw
    simp [emit, hf, hw]
  · intro t hf
    simp [emit, hf]
  · intro msg t hf hw
    simp [emit, hf, hw]
  · intro t
    cases fmtResult with
    | error e => cases e <;> simp [emit]
    | ok msg =>
        cases writeErr with
        | none => simp [emit]
        | some e => cases e <;> simp [emit]

/-- Concrete check of C7: emitting "hi" writes its two UTF-8 bytes plus one
newline and flushes; a write failure is handled, not raised. -/
theorem emit_spec_witness :
    emit (.ok "hi") none ⟨[], false, 0⟩ =
      .ok ⟨[] ++ encodeUtf8 "hi" ++ [10], true, 0⟩
    ∧ emit (.ok "hi") (some (.failure 3)) ⟨[], false, 0⟩ = .handled ⟨[], false, 1⟩
    ∧ emit (.error .recursion) none ⟨[], false, 0⟩ = .raised .recursion := by
  refine ⟨?_, ?_, ?_⟩
  · exact (emit_spec (.ok "hi") none ⟨[], false, 0⟩).1 "hi" rfl rfl
  · exact (emit_spec (.ok "hi") (some (.failure 3)) ⟨[], false, 0⟩).2.2.2.2.1 "hi" 3 rfl rfl
  · exact (emit_spec (.error .recursion) none ⟨[], false, 0⟩).2.1 rfl

/-! ## `_prepare_log_folder` and `init_log_file` (log.py lines 397-458)

```python
def _prepare_log_folder(directory, mode):
    for parent in reversed(directory.parents):
        parent.mkdir(mode=mode, exist_ok=True)
    directory.mkdir(mode=mode, exist_ok=True)

def init_log_file(local_relative_path):
    new_file_permissions = conf.get(..., fallback="0o664")
    new_folder_permissions = conf.get(..., fallback="0o775")
    base_log_folder = conf.get("logging", "base_log_folder")
    full_path = Path(base_log_folder, local_relative_path)
    _prepare_log_folder(full_path.parent, new_folder_permissions)
    try:
        full_path.touch(new_file_permissions)
    except OSError as e:
        log.warning("OSError while changing ownership of the log file. %s", e)
    return full_path
```

Paths are component lists; the empty list is the filesystem root.
-/

/-- A path, as its list of components. -/
abbrev FsPath := List String

/-- A filesystem: directories and regular files, each with the permission
bits it was created with. -/
structure FsState where
  dirs : List (FsPath × Nat)
  files : List (FsPath × Nat)
deriving DecidableEq, Repr

/-- First-match lookup of a path's recorded mode. -/
def lookupPath (l : List (FsPath × Nat)) (p : FsPath) : Option Nat :=
  match l with
  | [] => none
  | (q, m) :: rest => if q = p then some m else lookupPath rest p

/-- Does the path name an existing directory? -/
def isDir (fs : FsState) (p : FsPath) : Bool := (lookupPath fs.dirs p).isSome

/-- Does the path name an existing regular file? -/
def isFile (fs : FsState) (p : FsPath) : Bool := (lookupPath fs.files p).isSome

/-- `Path.mkdir(mode=mode, exist_ok=True)`: create the directory with the
given permission bits unless it already exists; an existing directory keeps
its mode (mkdir never chmods). -/
def mkdirExistOk (fs : FsState) (p : FsPath) (mode : Nat) : FsState :=
  if isDir fs p then fs else { fs with dirs := (p, mode) :: fs.dirs }

/-- `reversed(directory.parents)` followed by the directory itself: every
prefix of the path, outermost (the root) first. -/
def ancestorsAsc (p : FsPath) : List FsPath :=
  (List.range (p.length + 1)).map (fun n => p.take n)

/-- `_prepare_log_folder(directory, mode)`: mkdir every parent
outermost-first, then the directory itself, all with `mode`, tolerating
directories that already exist. -/
def _prepare_log_folder (fs : FsState) (directory : FsPath) (mode : Nat) : FsState :=
  (ancestorsAsc directory).foldl (fun acc p => mkdirExistOk acc p mode) fs

/-- `Path.touch(mode)` with its default `exist_ok=True`: `os.utime` is
tried first, so an existing path — file or directory alike — returns
silently; only an absent path reaches `os.open(O_CREAT | O_WRONLY, mode)`,
which creates the file with the permission bits or raises `OSError` for
environmental reasons (permission denied, disk quota, I/O error).
`createErr` is that OS-level outcome of the create call. -/
def touch (fs : FsState) (p : FsPath) (mode : Nat) (createErr : Option Unit) :
    Except Unit FsState :=
  if isDir fs p || isFile fs p then .ok fs
  else
    match createErr with
    | some _ => .error ()
    | none => .ok { fs with files := (p, mode) :: fs.files }

/-- The configuration values `init_log_file` reads. -/
structure LogConf where
  base_log_folder : FsPath
  new_file_permissions : Nat
  new_folder_permissions : Nat
deriving DecidableEq, Repr

/-- `init_log_file`: resolve the relative path against the base folder,
prepare the parent folder chain, then `touch` the file inside a
`try/except OSError` that logs a warning and continues. Returns the new
filesystem, the resolved path, and whether the warning branch ran. -/
def init_log_file (conf : LogConf) (fs : FsState) (rel : FsPath)
    (createErr : Option Unit) : FsState × FsPath × Bool :=
  let full := conf.base_log_folder ++ rel
  let fs1 := _prepare_log_folder fs full.dropLast conf.new_folder_permissions
  match touch fs1 full conf.new_file_permissions createErr with
  | .ok fs2 => (fs2, full, false)
  | .error _ => (fs1, full, true)

theorem lookupPath_mkdir (fs : FsState) (p : FsPath) (mode : Nat) :
    lookupPath (mkdirExistOk fs p mode).dirs p =
      some ((lookupPath fs.dirs p).getD mode) := by
  unfold mkdirExistOk isDir
  cases hl : lookupPath fs.dirs p with
  | none => simp [hl, lookupPath]
  | some m => simp [hl]

theorem lookupPath_mkdir_ne (fs : FsState) (p q : FsPath) (mode : Nat)
    (h : q ≠ p) :
    lookupPath (mkdirExistOk fs p mode).dirs q = lookupPath fs.dirs q := by
  unfold mkdirExistOk
  split
  · rfl
  · simp [lookupPath, Ne.symm h]

theorem mkdir_files (fs : FsState) (p : FsPath) (mode : Nat) :
    (mkdirExistOk fs p mode).files = fs.files := by
  unfold mkdirExistOk
  split
  · rfl
  · rfl

theorem foldl_mkdir_files (l : List FsPath) (fs : FsState) (mode : Nat) :
    (l.foldl (fun acc p => mkdirExistOk acc p mode) fs).files = fs.files := by
  induction l generalizing fs with
  | nil => rfl
  | cons p rest ih => rw [List.foldl_cons, ih, mkdir_files]

theorem lookupPath_foldl_mkdir (l : List FsPath) (fs : FsState) (q : FsPath)
    (mode : Nat) :
    lookupPath ((l.foldl (fun acc p => mkdirExistOk acc p mode) fs).dirs) q =
      if q ∈ l then some ((lookupPath fs.dirs q).getD mode)
      else lookupPath fs.dirs q := by
  induction l generalizing fs with
  | nil => simp
  | cons p rest ih =>
      rw [List.foldl_cons, ih]
      by_cases hq : q = p
      · subst hq
        by_cases hr : q ∈ rest
        · simp [hr, lookupPath_mkdir]
        · simp [hr, lookupPath_mkdir]
      · rw [lookupPath_mkdir_ne fs p q mode hq]
        simp [hq]

/-- **C9 (amended).** `init_log_file` resolves the relative path against the
base log folder and ensures every ancestor directory of the file exists,
outermost-first, with the configured folder permissions — a directory that
already exists is tolerated and keeps its mode; the file is then created if
absent with the configured file permissions, while an existing file (or an
existing directory at the resolved path) just gets its timestamp updated
and is left as is; and when the creating OS call raises an OSError — a
failure of the file creation itself included — the error is swallowed with
a logged warning and the call still returns the resolved path. -/
theorem init_log_file_spec (conf : LogConf) (fs : FsState) (rel : FsPath)
    (createErr : Option Unit) :
    ((init_log_file conf fs rel createErr).2.1 = conf.base_log_folder ++ rel)
    ∧ (∀ q, q ∈ ancestorsAsc (conf.base_log_folder ++ rel).dropLast →
        lookupPath (init_log_file conf fs rel createErr).1.dirs q =
          some ((lookupPath fs.dirs q).getD conf.new_folder_permissions))
    ∧ ((conf.base_log_folder ++ rel) ∉
          ancestorsAsc (conf.base_log_folder ++ rel).dropLast →
        isDir fs (conf.base_log_folder ++ rel) = false →
        isFile fs (conf.base_log_folder ++ rel) = false →
        createErr = none →
        lookupPath (init_log_file conf fs rel createErr).1.files
            (conf.base_log_folder ++ rel) = some conf.new_file_permissions
          ∧ (init_log_file conf fs rel createErr).2.2 = false)
    ∧ (isFile fs (conf.base_log_folder ++ rel) = true →
        (init_log_file conf fs rel createErr).1.files = fs.files
          ∧ (init_log_file conf fs rel createErr).2.2 = false)
    ∧ (isDir fs (conf.base_log_folder ++ rel) = true →
        (init_log_file conf fs rel createErr).1.files = fs.files
          ∧ (init_log_file conf fs rel createErr).2.2 = false)
    ∧ ((conf.base_log_folder ++ rel) ∉
          ancestorsAsc (conf.base_log_folder ++ rel).dropLast →
        isDir fs (conf.base_log_folder ++ rel) = false →
        isFile fs (conf.base_log_folder ++ rel) = false →
        createErr = some () →
        lookupPath (init_log_file conf fs rel createErr).1.files
            (conf.base_log_folder ++ rel) = none
          ∧ (init_log_file conf fs rel createErr).2.2 = true) := by
  have hdir1 : ∀ hnm : (conf.base_log_folder ++ rel) ∉
      ancestorsAsc (conf.base_log_folder ++ rel).dropLast,
      lookupPath (_prepare_log_folder fs (conf.base_log_folder ++ rel).dropLast
          conf.new_folder_permissions).dirs (conf.base_log_folder ++ rel) =
        lookupPath fs.dirs (conf.base_log_folder ++ rel) := by
    intro hnm
    unfold _prepare_log_folder
    rw [lookupPath_foldl_mkdir]
    simp [hnm]
  have hfiles1 : (_prepare_log_folder fs (conf.base_log_folder ++ rel).dropLast
      conf.new_folder_permissions).files = fs.files := by
    unfold _prepare_log_folder
    exact foldl_mkdir_files _ _ _
  refine ⟨?_, ?_, ?_, ?_, ?_, ?_⟩
  · cases ht : touch (_prepare_log_folder fs (conf.base_log_folder ++ rel).dropLast
        conf.new_folder_permissions) (conf.base_log_folder ++ rel)
        conf.new_file_permissions createErr with
    | ok fs2 => simp [init_log_file, ht]
    | error e => simp [init_log_file, ht]
  · intro q hq
    have hlook : lookupPath (_prepare_log_folder fs
        (conf.base_log_folder ++ rel).dropLast conf.new_folder_permissions).dirs q =
        some ((lookupPath fs.dirs q).getD conf.new_folder_permissions) := by
      unfold _prepare_log_folder
      rw [lookupPath_foldl_mkdir]
      simp [hq]
    unfold init_log_file
    simp only []
    cases ht : touch (_prepare_log_folder fs (conf.base_log_folder ++ rel).dropLast
        conf.new_folder_permissions) (conf.base_log_folder ++ rel)
        conf.new_file_permissions createErr with
    | ok fs2 =>
        unfold touch at ht
        split at ht
        · rw [← Except.ok.inj ht]
          simpa using hlook
        · cases createErr with
          | some u => cases ht
          | none =>
              rw [← Except.ok.inj ht]
              simpa using hlook
    | error e =>
        simpa using hlook
  · intro hnm hd hf hce
    subst hce
    have hd1 : isDir (_prepare_log_folder fs (conf.base_log_folder ++ rel).dropLast
        conf.new_folder_permissions) (conf.base_log_folder ++ rel) = false := by
      unfold isDir
      rw [hdir1 hnm]
      unfold isDir at hd
      exact hd
    have hf1 : isFile (_prepare_log_folder fs (conf.base_log_folder ++ rel).dropLast
        conf.new_folder_permissions) (conf.base_log_folder ++ rel) = false := by
      unfold isFile
      rw [hfiles1]
      unfold isFile at hf
      exact hf
    unfold init_log_file touch
    simp only [hd1, hf1, Bool.or_false, Bool.false_eq_true, if_false]
    constructor
    · simp [lookupPath]
    · trivial
  · intro hf
    have hf1 : isFile (_prepare_log_folder fs (conf.base_log_folder ++ rel).dropLast
        conf.new_folder_permissions) (conf.base_log_folder ++ rel) = true := by
      unfold isFile
      rw [hfiles1]
      unfold isFile at hf
      exact hf
    unfold init_log_file touch
    simp only [hf1, Bool.or_true, if_true]
    exact ⟨hfiles1, trivial⟩
  · intro hd
    have hd1 : isDir (_prepare_log_folder fs (conf.base_log_folder ++ rel).dropLast
        conf.new_folder_permissions) (conf.base_log_folder ++ rel) = true := by
      unfold isDir _prepare_log_folder
      rw [lookupPath_foldl_mkdir]
      split
      · rfl
      · unfold isDir at hd
        exact hd
    unfold init_log_file touch
    simp only [hd1, Bool.true_or, if_true]
    exact ⟨hfiles1, trivial⟩
  · intro hnm hd hf hce
    subst hce
    have hd1 : isDir (_prepare_log_folder fs (conf.base_log_folder ++ rel).dropLast
        conf.new_folder_permissions) (conf.base_log_folder ++ rel) = false := by
      unfold isDir
      rw [hdir1 hnm]
      unfold isDir at hd
      exact hd
    have hf1 : isFile (_prepare_log_folder fs (conf.base_log_folder ++ rel).dropLast
        conf.new_folder_permissions) (conf.base_log_folder ++ rel) = false := by
      unfold isFile
      rw [hfiles1]
      unfold isFile at hf
      exact hf
    have hnone : lookupPath fs.files (conf.base_log_folder ++ rel) = none := by
      unfold isFile at hf
      cases hl : lookupPath fs.files (conf.base_log_folder ++ rel) with
      | none => rfl
      | some m => rw [hl] at hf; cases hf
    unfold init_log_file touch
    simp only [hd1, hf1, Bool.or_false, Bool.false_eq_true, if_false]
    constructor
    · rw [hfiles1]
      exact hnone
    · trivial

/-- **C9 as stated is false** at this input: the directory chain is
prepared, the file `logs/a/b/c.log` is absent, and the OS rejects the
creating `os.open` call (for instance with `PermissionError`) — the file
creation itself fails — yet `init_log_file` swallows the OSError, logs only
a warning, creates no file, and returns the path normally; the claim says a
failure of the file creation itself is not swallowed. -/
theorem init_log_file_counterexample :
    (init_log_file ⟨["logs"], 436, 509⟩ { dirs := [], files := [] }
        ["a", "b", "c.log"] (some ())).2.2 = true
    ∧ isFile (init_log_file ⟨["logs"], 436, 509⟩ { dirs := [], files := [] }
        ["a", "b", "c.log"] (some ())).1 ["logs", "a", "b", "c.log"] = false :=
  ⟨rfl, rfl⟩

/-- Concrete check of the amended C9: the specification's own example —
base folder `/logs`, relative path `a/b/c.log`, with `/logs/a` already
existing — with the OS create call succeeding. The pre-existing directory
keeps its mode, the missing directories get the folder permissions, and the
file is created with the file permissions, without any warning. -/
theorem init_log_file_spec_witness :
    lookupPath (init_log_file ⟨["logs"], 436, 509⟩
        { dirs := [([], 0), (["logs"], 509), (["logs", "a"], 400)], files := [] }
        ["a", "b", "c.log"] none).1.dirs ["logs", "a"] = some 400
    ∧ lookupPath (init_log_file ⟨["logs"], 436, 509⟩
        { dirs := [([], 0), (["logs"], 509), (["logs", "a"], 400)], files := [] }
        ["a", "b", "c.log"] none).1.dirs ["logs", "a", "b"] = some 509
    ∧ lookupPath (init_log_file ⟨["logs"], 436, 509⟩
        { dirs := [([], 0), (["logs"], 509), (["logs", "a"], 400)], files := [] }
        ["a", "b", "c.log"] none).1.files ["logs", "a", "b", "c.log"] = some 436
    ∧ (init_log_file ⟨["logs"], 436, 509⟩
        { dirs := [([], 0), (["logs"], 509), (["logs", "a"], 400)], files := [] }
        ["a", "b", "c.log"] none).2.2 = false := by
  refine ⟨?_, ?_, ?_, ?_⟩
  · have h := (init_log_file_spec ⟨["logs"], 436, 509⟩
      { dirs := [([], 0), (["logs"], 509), (["logs", "a"], 400)], files := [] }
      ["a", "b", "c.log"] none).2.1 ["logs", "a"] (by decide)
    rw [h]
    decide
  · have h := (init_log_file_spec ⟨["logs"], 436, 509⟩
      { dirs := [([], 0), (["logs"], 509), (["logs", "a"], 400)], files := [] }
      ["a", "b", "c.log"] none).2.1 ["logs", "a", "b"] (by decide)
    rw [h]
    decide
  · exact ((init_log_file_spec ⟨["logs"], 436, 509⟩
      { dirs := [([], 0), (["logs"], 509), (["logs", "a"], 400)], files := [] }
      ["a", "b", "c.log"] none).2.2.1 (by decide) (by decide) (by decide) rfl).1
  · exact ((init_log_file_spec ⟨["logs"], 436, 509⟩
      { dirs := [([], 0), (["logs"], 509), (["logs", "a"], 400)], files := [] }
      ["a", "b", "c.log"] none).2.2.1 (by decide) (by decide) (by decide) rfl).2

end AirflowLog
